import Mathlib

/-! Verification of urat: KPOD polling, discovery and stepper actuation.

A shallow embedding of `src/urat.c`.  Every library call the program makes
(`open`, `ioctl`, `close`, `write`, `read`, `printf`, the OLED calls, the
wiringPi calls) is recorded as an `Event`; a C function becomes a Lean
function from the global `TargetDevice`, the answers of the outside world
and the indeterminate initial contents of its automatic variables to its
return value, the new global and the list of events it performed.
-/

namespace Urat

/-- One `unsigned char` (`typedef unsigned char BYTE`). -/
abbrev BYTE := Fin 256

/-- Macro `REPORT_LEN`: the EP0 report packet size. -/
def REPORT_LEN : Nat := 8

/-- Macro `VENDOR_ID`: the Microchip vendor id. -/
def VENDOR_ID : Int := 0x04d8

/-- Macro `PRODUCT_ID`: the Elecraft KPOD product id. -/
def PRODUCT_ID : Int := 0xF12D

/-- Enumerator `KPOD_USB_CMD_UPDATE`, the character u. -/
def KPOD_USB_CMD_UPDATE : Int := 0x75

/-- Enumerator `KPOD_USB_CMD_ID`, the character =. -/
def KPOD_USB_CMD_ID : Int := 0x3D

/-- Library calls of the program, in the order they are performed. -/
inductive Event where
  /-- Call `open("/dev/hidraw<i>", O_RDWR)` together with the value it returned. -/
  | devOpen (i : Nat) (ret : Int)
  /-- Call `ioctl(fd, HIDIOCGRAWINFO, &info)`. -/
  | ioctl (fd : Int)
  /-- Call `close(fd)`. -/
  | close (fd : Int)
  /-- Call `write(fd, buf, count)` with the bytes of the buffer. -/
  | write (fd : Int) (buf : List BYTE) (count : Nat)
  /-- Call `read(fd, buf, count)`. -/
  | read (fd : Int) (count : Nat)
  /-- Call `printf(fmt, args...)`. -/
  | printf (fmt : String) (args : List Int)
  | oledInit (addr : Nat)
  | oledFill (v : Nat)
  | oledWriteString (x y : Nat) (text : String) (size : Nat)
  | oledShutdown
  | usleep (us : Nat)
  | wiringPiSetup
  /-- Call `pinMode(pin, OUTPUT)`. -/
  | pinMode (pin : Nat)
  | digitalWrite (pin : Nat) (level : Nat)
  | delayMicroseconds (us : Nat)
  deriving DecidableEq, Repr

/-- The globals of the program: `int TargetDevice = -1`. -/
structure Globals where
  TargetDevice : Int
  deriving DecidableEq, Repr

/-- Conversion of an `int` to `int16_t` (two's complement wraparound). -/
def toInt16 (n : Int) : Int := (n + 32768) % 65536 - 32768

/-- Struct `USB_ReportPkt` (packed, 8 bytes). -/
structure USB_ReportPkt where
  cmd : BYTE
  ticks : Int
  button : BYTE
  spare : List BYTE
  deriving DecidableEq, Repr

/-- The packed struct overlaid on the 8 bytes of the reply buffer
(little-endian target): byte 0 is `cmd`, bytes 1-2 are `ticks`, byte 3 is
`button`, bytes 4-7 are `spare`. -/
def USB_ReportPkt.ofBytes (b : List BYTE) : USB_ReportPkt :=
  ⟨b.getD 0 0, toInt16 ((b.getD 1 0).val + 256 * (b.getD 2 0).val), b.getD 3 0, b.drop 4⟩

/-- What the host answers when `/dev/hidraw<i>` can be opened: the descriptor
returned by `open` and the `vendor` and `product` fields of `info` after
`memset` and `ioctl(HIDIOCGRAWINFO)` (both zero when the ioctl fails). -/
structure Probe where
  fd : Nat
  vendor : Int
  product : Int
  deriving DecidableEq, Repr

/-- The host seen by discovery: probe index to `none` (open fails, returning
`-1`) or the opened descriptor and its identifiers. -/
abbrev Host := Nat → Option Probe

/-- The test `((info.vendor & 0xFFFF) == VENDOR_ID) && ((info.product & 0xFFFF) == PRODUCT_ID)`. -/
def isKpod (p : Probe) : Bool :=
  decide (p.vendor % 65536 = VENDOR_ID) && decide (p.product % 65536 = PRODUCT_ID)

/-- Result of `findHidRawDevice`. -/
structure FindResult where
  ret : Int
  g : Globals
  trace : List Event
  deriving DecidableEq, Repr

/-- The `for (i=0;i<255;i++)` loop of `findHidRawDevice`, with `n` iterations
left, loop variable `i` and the current globals. -/
def findLoop (host : Host) : Nat → Nat → Globals → FindResult
  | 0, _, g => ⟨1, g, []⟩
  | n + 1, i, _ =>
    match host i with
    | none =>
      -- TargetDevice = open(...) is negative: continue
      let r := findLoop host n (i + 1) ⟨-1⟩
      ⟨r.ret, r.g, Event.devOpen i (-1) :: r.trace⟩
    | some p =>
      let pre := [Event.devOpen i p.fd, Event.ioctl p.fd,
        Event.printf "vid:%x pid:%x\n" [p.vendor % 65536, p.product % 65536]]
      if isKpod p then
        ⟨0, ⟨p.fd⟩, pre ++ [Event.printf "found kpod at %s\n" [i]]⟩
      else
        let r := findLoop host n (i + 1) ⟨p.fd⟩
        ⟨r.ret, r.g, pre ++ [Event.close p.fd] ++ r.trace⟩

/-- Function `findHidRawDevice`. -/
def findHidRawDevice (host : Host) (g : Globals) : FindResult :=
  findLoop host 255 0 g

/-- Function `closeAll`: the events it performs (it does not assign `TargetDevice`). -/
def closeAll (g : Globals) : List Event :=
  [Event.oledShutdown] ++ (if g.TargetDevice ≥ 0 then [Event.close g.TargetDevice] else [])

/-- The outside world during one call of `sendCommand`. -/
structure Xfer where
  /-- Indeterminate contents of `pkt.data[7]`, which is never assigned. -/
  junk : Fin 7 → BYTE
  /-- Value returned by `write`. -/
  wr : Int
  /-- Value returned by `read`. -/
  rd : Int
  /-- Contents of the reply buffer after `read`. -/
  reply : List BYTE

/-- Result of `sendCommand`: return value, contents of `*reptr` afterwards
(`none` for a null pointer) and events. -/
structure SendResult where
  ret : Int
  buf : Option (List BYTE)
  trace : List Event
  deriving DecidableEq, Repr

/-- The byte stored by `pkt.cmd = command`. -/
def cmdByte (command : Int) : BYTE := ⟨(command % 256).toNat, by omega⟩

/-- Function `sendCommand`.  `reptr` is `none` for `NULL`, otherwise the current
contents of the buffer it points to. -/
def sendCommand (g : Globals) (command : Int) (reptr : Option (List BYTE)) (x : Xfer) :
    SendResult :=
  if g.TargetDevice < 0 then
    ⟨1, reptr, []⟩
  else
    let pkt : List BYTE := cmdByte command :: List.ofFn x.junk
    let w := Event.write g.TargetDevice pkt REPORT_LEN
    if x.wr ≠ REPORT_LEN then
      ⟨1, reptr, [w, Event.printf "error writing packet\n" []]⟩
    else
      match reptr with
      | none => ⟨0, none, [w]⟩
      | some _ =>
        let r := Event.read g.TargetDevice REPORT_LEN
        if x.rd ≠ REPORT_LEN then
          ⟨1, some x.reply, [w, r, Event.printf "error reading packet\n" []]⟩
        else
          ⟨0, some x.reply, [w, r]⟩

/-- Indeterminate initial contents of the automatic variables of `getUpdate`
(`int16_t lctr; int16_t cctr; USB_ReportPkt replypkt;`), none of which has an
initialiser. -/
structure Locals where
  lctr : Int
  cctr : Int
  replypkt : List BYTE

/-- Result of `getUpdate`: globals, the values of `lctr` and `cctr` when the
function returns (their storage ends there) and events. -/
structure UpdateResult where
  g : Globals
  lctr : Int
  cctr : Int
  trace : List Event
  deriving DecidableEq, Repr

/-- Function `getUpdate`. -/
def getUpdate (g : Globals) (loc : Locals) (x : Xfer) : UpdateResult :=
  let res := sendCommand g KPOD_USB_CMD_UPDATE (some loc.replypkt) x
  if res.ret ≠ 0 then
    ⟨g, loc.lctr, loc.cctr, res.trace ++ [Event.printf "usb command failure" []]⟩
  else
    let replypkt := USB_ReportPkt.ofBytes (res.buf.getD loc.replypkt)
    if (replypkt.cmd.val : Int) = KPOD_USB_CMD_UPDATE then
      if replypkt.button.val &&& 0xE0 ≠ 0 then
        let lctr := toInt16 (loc.lctr + replypkt.ticks)
        ⟨g, lctr, loc.cctr,
          res.trace ++
          [Event.printf "L:%d\n" [lctr],
           Event.oledWriteString 0 0 ("L:" ++ toString lctr) 1] ++
          (if replypkt.ticks < 0 then
            [Event.digitalWrite 1 0, Event.digitalWrite 4 1, Event.delayMicroseconds 10,
             Event.digitalWrite 4 0, Event.delayMicroseconds 10]
           else []) ++
          (if replypkt.ticks > 0 then
            [Event.digitalWrite 1 1, Event.digitalWrite 4 1, Event.delayMicroseconds 10,
             Event.digitalWrite 4 0, Event.delayMicroseconds 10]
           else [])⟩
      else
        let cctr := toInt16 (loc.cctr + replypkt.ticks)
        ⟨g, loc.lctr, cctr,
          res.trace ++
          [Event.printf "C:%d\n" [cctr],
           Event.oledWriteString 0 0 ("C:" ++ toString cctr) 1] ++
          (if replypkt.ticks < 0 then
            [Event.digitalWrite 22 0, Event.digitalWrite 23 1, Event.delayMicroseconds 10,
             Event.digitalWrite 23 0, Event.delayMicroseconds 10]
           else []) ++
          (if replypkt.ticks > 0 then
            [Event.digitalWrite 22 1, Event.digitalWrite 23 1, Event.delayMicroseconds 10,
             Event.digitalWrite 23 0, Event.delayMicroseconds 10]
           else [])⟩
    else
      ⟨g, loc.lctr, loc.cctr, res.trace⟩

/-- The outside world during one iteration of the polling loop. -/
structure Iter where
  loc : Locals
  x : Xfer

/-- The loop `while (1==1) { getUpdate(); }` of `main`: the events of its first
`n` iterations, iteration number `k` being the next one. -/
def pollLoop (env : Nat → Iter) : Nat → Nat → Globals → List Event
  | 0, _, _ => []
  | n + 1, k, g =>
    let r := getUpdate g (env k).loc (env k).x
    r.trace ++ pollLoop env n (k + 1) r.g

/-- The outside world during one run of `main`. -/
structure MainEnv where
  /-- Value returned by `wiringPiSetup()`. -/
  wiringPiSetup : Int
  host : Host
  /-- Value returned by `oledInit(0x3c)`. -/
  oledInit : Int
  /-- Indeterminate initial contents of the `replypkt` of `main`. -/
  replypkt : List BYTE
  /-- The transaction of the Identify command. -/
  idXfer : Xfer
  poll : Nat → Iter

/-- Result of running `main`: `exit` is the value returned, or `none` while the
polling loop is still running after the given number of iterations. -/
structure MainResult where
  exit : Option Int
  g : Globals
  trace : List Event
  deriving DecidableEq, Repr

/-- Function `main`, observed until the polling loop has made `fuel` iterations.
The statements after the loop cannot be reached. -/
def main (fuel : Nat) (e : MainEnv) : MainResult :=
  let g0 : Globals := ⟨-1⟩
  if e.wiringPiSetup = -1 then
    ⟨some 0, g0, [Event.wiringPiSetup,
      Event.printf "Error on wiringPiSetup.  Program quitting.\n" []]⟩
  else
    let pins := [Event.wiringPiSetup,
      Event.pinMode 1, Event.digitalWrite 1 0,
      Event.pinMode 4, Event.digitalWrite 4 0,
      Event.pinMode 22, Event.digitalWrite 22 0,
      Event.pinMode 23, Event.digitalWrite 23 0]
    let f := findHidRawDevice e.host g0
    if f.ret ≠ 0 then
      ⟨some 1, f.g, pins ++ f.trace ++ [Event.printf "could not find KPOD\n" []] ++ closeAll f.g⟩
    else
      let oled := [Event.oledInit 0x3c, Event.oledFill 0,
        Event.oledWriteString 0 0 "KY6R LAB" 1, Event.usleep 1000, Event.oledFill 0]
      let s := sendCommand f.g KPOD_USB_CMD_ID (some e.replypkt) e.idXfer
      let status := Event.printf "status reply: %s\n\r" (((s.buf.getD e.replypkt).map (fun b => (b.val : Int))))
      ⟨none, f.g, pins ++ f.trace ++ oled ++ s.trace ++ [status] ++ pollLoop e.poll fuel 0 f.g⟩

/-! ## Observations on event lists -/

/-- Operations on the output pins: `pinMode`, `digitalWrite` and `delayMicroseconds`. -/
def isPinOp : Event → Bool
  | .pinMode _ => true
  | .digitalWrite _ _ => true
  | .delayMicroseconds _ => true
  | _ => false

/-- Calls of the transport: `write` and `read`. -/
def isTransfer : Event → Bool
  | .write _ _ _ => true
  | .read _ _ => true
  | _ => false

/-- Calls of `write`. -/
def isWrite : Event → Bool
  | .write _ _ _ => true
  | _ => false

/-- Calls of `close`. -/
def isClose : Event → Bool
  | .close _ => true
  | _ => false

/-- Calls on the status surface (the OLED). -/
def isStatus : Event → Bool
  | .oledInit _ => true
  | .oledFill _ => true
  | .oledWriteString _ _ _ _ => true
  | .oledShutdown => true
  | _ => false

/-- Calls that belong to shutdown: `oledShutdown` and `close`. -/
def isShutdown : Event → Bool
  | .oledShutdown => true
  | .close _ => true
  | _ => false

/-- The level of the first `digitalWrite` on `pin`, if there is one. -/
def dirLevel (pin : Nat) : List Event → Option Nat
  | [] => none
  | .digitalWrite p l :: rest => if p = pin then some l else dirLevel pin rest
  | _ :: rest => dirLevel pin rest

/-- One event applied to the descriptors that are open: a successful `open`
adds its descriptor, `close` removes it. -/
def stepHandles (acc : List Int) : Event → List Int
  | .devOpen _ ret => if 0 ≤ ret then ret :: acc else acc
  | .close fd => acc.erase fd
  | _ => acc

/-- The descriptors left open by a list of events, starting from `acc`. -/
def openHandles (acc : List Int) (tr : List Event) : List Int :=
  tr.foldl stepHandles acc

/-- The events of probing index `j` when the probe does not end discovery: a
failed `open`, or `open`, `ioctl`, `printf` and `close` of a device. -/
def probeMiss (host : Host) (j : Nat) : List Event :=
  match host j with
  | none => [Event.devOpen j (-1)]
  | some p => [Event.devOpen j p.fd, Event.ioctl p.fd,
      Event.printf "vid:%x pid:%x\n" [p.vendor % 65536, p.product % 65536], Event.close p.fd]

/-- The events of probing index `m` when it is the KPOD. -/
def probeHit (m : Nat) (p : Probe) : List Event :=
  [Event.devOpen m p.fd, Event.ioctl p.fd,
    Event.printf "vid:%x pid:%x\n" [p.vendor % 65536, p.product % 65536],
    Event.printf "found kpod at %s\n" [m]]

/-- Index `i` of the host opens and reports the KPOD identifiers. -/
def hostMatch (host : Host) (i : Nat) : Prop :=
  ∃ p, host i = some p ∧ isKpod p = true

/-! ## Concrete hosts and transactions -/

/-- A host where `/dev/hidraw0` is some other device on descriptor 5,
`/dev/hidraw1` cannot be opened, `/dev/hidraw2` is the KPOD on descriptor 3 (its
product id read as the signed 16-bit field of `hidraw_devinfo`), and
`/dev/hidraw3` is another KPOD on descriptor 4. -/
def hostKpodAt2 : Host := fun i =>
  if i = 0 then some ⟨5, 0x046d, 0x0c52⟩
  else if i = 2 then some ⟨3, 0x04d8, -3795⟩
  else if i = 3 then some ⟨4, 0x04d8, 0xF12D⟩
  else none

/-- A host where only the last probed path, `/dev/hidraw254`, can be opened (on
descriptor 3) and is not the KPOD. -/
def hostLastOnly : Host := fun i =>
  if i = 254 then some ⟨3, 0x046d, 0x0c52⟩ else none

/-- A host whose `/dev/hidraw0` is the KPOD on descriptor 3. -/
def hostKpodAt0 : Host := fun i =>
  if i = 0 then some ⟨3, 0x04d8, 0xF12D⟩ else none

/-- A transaction whose write fails (returns -1). -/
def xferWriteFails : Xfer := ⟨fun _ => 0, -1, 8, []⟩

/-- A successful transaction with the report of scenario A: `u`, +5, rocker high. -/
def xferScenarioA : Xfer := ⟨fun _ => 0, 8, 8, [0x75, 0x05, 0x00, 0x20, 0, 0, 0, 0]⟩

/-- A successful transaction during which the seven bytes of `pkt.data` hold
`0xAA`, left on the stack by earlier calls. -/
def xferStaleStack : Xfer := ⟨fun _ => 0xAA, 8, 8, [0x75, 0, 0, 0, 0, 0, 0, 0]⟩

/-- Automatic variables of `getUpdate` that happen to hold zero on entry. -/
def localsZero : Locals := ⟨0, 0, []⟩

/-- A polling history whose first Update transaction fails and whose later ones
succeed with the report of scenario A. -/
def pollFailThenA : Nat → Iter := fun k =>
  if k = 0 then ⟨localsZero, xferWriteFails⟩ else ⟨localsZero, xferScenarioA⟩

/-- A polling history where every Update transaction succeeds with the report of
scenario A and the automatic variables hold zero on every entry. -/
def pollAlwaysA : Nat → Iter := fun _ => ⟨localsZero, xferScenarioA⟩

/-- A run with the KPOD at `/dev/hidraw0` whose first Update transaction fails. -/
def envFailThenA : MainEnv := ⟨0, hostKpodAt0, 0, [], xferScenarioA, pollFailThenA⟩

/-- A run in which `wiringPiSetup` returns -1. -/
def envSetupFails : MainEnv := ⟨-1, hostKpodAt0, 0, [], xferScenarioA, pollAlwaysA⟩

/-- A run with the KPOD at `/dev/hidraw0` in which `oledInit` returns `y`. -/
def envOledReturns (y : Int) : MainEnv := ⟨0, hostKpodAt0, y, [], xferScenarioA, pollAlwaysA⟩

/-- A run on the host where only `/dev/hidraw254` opens and is not the KPOD. -/
def envLastOnly : MainEnv := ⟨0, hostLastOnly, 0, [], xferScenarioA, pollAlwaysA⟩

/-- Calls that open a descriptor successfully or close one. -/
def isHandleOp : Event → Bool
  | .devOpen _ ret => decide (0 ≤ ret)
  | .close _ => true
  | _ => false

/-! ## Theorems -/

/-- C5: `sendCommand` with an invalid handle returns 1 and performs no write and
no read; with a valid handle it performs exactly one write of the 8-byte packet
with count 8, then one read of 8 bytes exactly when the reply pointer is
non-null and the write returned 8, and nothing else on the transport; it
returns 0 exactly when the write returned 8 and the read, if performed,
returned 8. -/
theorem sendCommand_one_request_one_reply (g : Globals) (command : Int)
    (reptr : Option (List BYTE)) (x : Xfer) :
    (g.TargetDevice < 0 →
      (sendCommand g command reptr x).ret = 1 ∧
      (sendCommand g command reptr x).trace.filter isTransfer = []) ∧
    (0 ≤ g.TargetDevice →
      (sendCommand g command reptr x).trace.filter isTransfer =
        Event.write g.TargetDevice (cmdByte command :: List.ofFn x.junk) 8 ::
          (if reptr.isSome = true ∧ x.wr = 8 then [Event.read g.TargetDevice 8] else []) ∧
      (cmdByte command :: List.ofFn x.junk).length = 8 ∧
      ((sendCommand g command reptr x).ret = 0 ↔
        x.wr = 8 ∧ (reptr.isSome = true → x.rd = 8))) := by
  refine ⟨fun h => ?_, fun h => ?_⟩
  · simp [sendCommand, h]
  · have h1 : ¬ g.TargetDevice < 0 := by omega
    cases reptr with
    | none =>
      by_cases hw : x.wr = 8
      · simp [sendCommand, h1, hw, REPORT_LEN, isTransfer]
      · simp [sendCommand, h1, hw, REPORT_LEN, isTransfer]
    | some b =>
      by_cases hw : x.wr = 8
      · by_cases hr : x.rd = 8
        · simp [sendCommand, h1, hw, hr, REPORT_LEN, isTransfer]
        · simp [sendCommand, h1, hw, hr, REPORT_LEN, isTransfer]
      · simp [sendCommand, h1, hw, REPORT_LEN, isTransfer]

/-- C3: when the transaction succeeds and byte 0 of the 8-byte reply is not the
update identifier, one `getUpdate` performs the write and the read and nothing
else: no pin operation, nothing on the status surface, `lctr`, `cctr` and the
globals unchanged, whatever the tick and switch bytes. -/
theorem getUpdate_discards_non_update (g : Globals) (loc : Locals) (junk : Fin 7 → BYTE)
    (c lo hi b s0 s1 s2 s3 : BYTE) (hg : 0 ≤ g.TargetDevice) (hc : c ≠ 0x75) :
    (getUpdate g loc ⟨junk, 8, 8, [c, lo, hi, b, s0, s1, s2, s3]⟩).trace =
        [Event.write g.TargetDevice (0x75 :: List.ofFn junk) 8, Event.read g.TargetDevice 8] ∧
    (getUpdate g loc ⟨junk, 8, 8, [c, lo, hi, b, s0, s1, s2, s3]⟩).trace.filter isPinOp = [] ∧
    (getUpdate g loc ⟨junk, 8, 8, [c, lo, hi, b, s0, s1, s2, s3]⟩).trace.filter isStatus = [] ∧
    (getUpdate g loc ⟨junk, 8, 8, [c, lo, hi, b, s0, s1, s2, s3]⟩).lctr = loc.lctr ∧
    (getUpdate g loc ⟨junk, 8, 8, [c, lo, hi, b, s0, s1, s2, s3]⟩).cctr = loc.cctr ∧
    (getUpdate g loc ⟨junk, 8, 8, [c, lo, hi, b, s0, s1, s2, s3]⟩).g = g := by
  have h1 : ¬ g.TargetDevice < 0 := by omega
  have h2 : ¬ ((c.val : Int) = 117) := by
    intro h
    apply hc
    apply Fin.ext
    have : c.val = 117 := by exact_mod_cast h
    simpa using this
  have hb : cmdByte 117 = (0x75 : BYTE) := by decide
  simp [getUpdate, sendCommand, h1, REPORT_LEN, KPOD_USB_CMD_UPDATE, USB_ReportPkt.ofBytes, h2,
    isPinOp, isStatus, hb]

/-- C3, at the reply `[0x3D, 5, 0, 0x20, 0, 0, 0, 0]` on descriptor 3. -/
theorem getUpdate_discards_non_update_witness :
    (getUpdate ⟨3⟩ ⟨7, 9, []⟩ ⟨fun _ => 0, 8, 8, [0x3D, 5, 0, 0x20, 0, 0, 0, 0]⟩).trace =
        [Event.write 3 (0x75 :: List.ofFn (fun _ : Fin 7 => (0 : BYTE))) 8, Event.read 3 8] ∧
    (getUpdate ⟨3⟩ ⟨7, 9, []⟩ ⟨fun _ => 0, 8, 8, [0x3D, 5, 0, 0x20, 0, 0, 0, 0]⟩).lctr = 7 ∧
    (getUpdate ⟨3⟩ ⟨7, 9, []⟩ ⟨fun _ => 0, 8, 8, [0x3D, 5, 0, 0x20, 0, 0, 0, 0]⟩).cctr = 9 :=
  have h := getUpdate_discards_non_update ⟨3⟩ ⟨7, 9, []⟩ (fun _ => 0) 0x3D 5 0 0x20 0 0 0 0
    (by decide) (by decide)
  ⟨h.1, h.2.2.2.1, h.2.2.2.2.1⟩

/-- A transaction on a valid handle whose write and read both return 8. -/
theorem sendCommand_ok (g : Globals) (command : Int) (buf : List BYTE) (junk : Fin 7 → BYTE)
    (reply : List BYTE) (hg : 0 ≤ g.TargetDevice) :
    sendCommand g command (some buf) ⟨junk, 8, 8, reply⟩ =
      ⟨0, some reply, [Event.write g.TargetDevice (cmdByte command :: List.ofFn junk) 8,
        Event.read g.TargetDevice 8]⟩ := by
  have h1 : ¬ g.TargetDevice < 0 := by omega
  simp [sendCommand, h1, REPORT_LEN]

/-- The result of `getUpdate` when the transaction succeeds and the reply is an
update report, by axis. -/
theorem getUpdate_update_eq (g : Globals) (loc : Locals) (junk : Fin 7 → BYTE)
    (lo hi b s0 s1 s2 s3 : BYTE) (hg : 0 ≤ g.TargetDevice) :
    getUpdate g loc ⟨junk, 8, 8, [0x75, lo, hi, b, s0, s1, s2, s3]⟩ =
      if b.val &&& 0xE0 ≠ 0 then
        ⟨g, toInt16 (loc.lctr + toInt16 (lo.val + 256 * hi.val)), loc.cctr,
          [Event.write g.TargetDevice (0x75 :: List.ofFn junk) 8, Event.read g.TargetDevice 8,
           Event.printf "L:%d\n" [toInt16 (loc.lctr + toInt16 (lo.val + 256 * hi.val))],
           Event.oledWriteString 0 0
             ("L:" ++ toString (toInt16 (loc.lctr + toInt16 (lo.val + 256 * hi.val)))) 1] ++
          (if toInt16 (lo.val + 256 * hi.val) < 0 then
            [Event.digitalWrite 1 0, Event.digitalWrite 4 1, Event.delayMicroseconds 10,
             Event.digitalWrite 4 0, Event.delayMicroseconds 10]
           else []) ++
          (if toInt16 (lo.val + 256 * hi.val) > 0 then
            [Event.digitalWrite 1 1, Event.digitalWrite 4 1, Event.delayMicroseconds 10,
             Event.digitalWrite 4 0, Event.delayMicroseconds 10]
           else [])⟩
      else
        ⟨g, loc.lctr, toInt16 (loc.cctr + toInt16 (lo.val + 256 * hi.val)),
          [Event.write g.TargetDevice (0x75 :: List.ofFn junk) 8, Event.read g.TargetDevice 8,
           Event.printf "C:%d\n" [toInt16 (loc.cctr + toInt16 (lo.val + 256 * hi.val))],
           Event.oledWriteString 0 0
             ("C:" ++ toString (toInt16 (loc.cctr + toInt16 (lo.val + 256 * hi.val)))) 1] ++
          (if toInt16 (lo.val + 256 * hi.val) < 0 then
            [Event.digitalWrite 22 0, Event.digitalWrite 23 1, Event.delayMicroseconds 10,
             Event.digitalWrite 23 0, Event.delayMicroseconds 10]
           else []) ++
          (if toInt16 (lo.val + 256 * hi.val) > 0 then
            [Event.digitalWrite 22 1, Event.digitalWrite 23 1, Event.delayMicroseconds 10,
             Event.digitalWrite 23 0, Event.delayMicroseconds 10]
           else [])⟩ := by
  have hb : cmdByte 117 = (0x75 : BYTE) := by decide
  have hu : (((0x75 : BYTE) : Nat) : Int) = 117 := rfl
  unfold getUpdate
  rw [sendCommand_ok g _ _ junk _ hg]
  simp only [USB_ReportPkt.ofBytes, hu, hb, KPOD_USB_CMD_UPDATE, Option.getD_some,
    List.getD_cons_zero, List.getD_cons_succ]
  rw [if_neg (by decide), if_pos trivial]
  rfl

/-- C1: when the transaction succeeds and byte 0 of the 8-byte reply is the
update identifier, with `t` the signed little-endian value of bytes 1-2 and `b`
byte 3, the pin operations of one `getUpdate` are none when `t = 0`, and
otherwise the direction write (level 0 for `t < 0`, else 1), step high, 10 us,
step low, 10 us, on pins (1, 4) when `b & 0xE0` is non-zero and on pins
(22, 23) when it is zero. -/
theorem getUpdate_pin_ops (g : Globals) (loc : Locals) (junk : Fin 7 → BYTE)
    (lo hi b s0 s1 s2 s3 : BYTE) (hg : 0 ≤ g.TargetDevice) :
    (getUpdate g loc ⟨junk, 8, 8, [0x75, lo, hi, b, s0, s1, s2, s3]⟩).trace.filter isPinOp =
      if toInt16 (lo.val + 256 * hi.val) = 0 then []
      else
        [Event.digitalWrite (if b.val &&& 0xE0 ≠ 0 then 1 else 22)
            (if toInt16 (lo.val + 256 * hi.val) < 0 then 0 else 1),
         Event.digitalWrite (if b.val &&& 0xE0 ≠ 0 then 4 else 23) 1,
         Event.delayMicroseconds 10,
         Event.digitalWrite (if b.val &&& 0xE0 ≠ 0 then 4 else 23) 0,
         Event.delayMicroseconds 10] := by
  rw [getUpdate_update_eq g loc junk lo hi b s0 s1 s2 s3 hg]
  rcases lt_trichotomy (toInt16 (lo.val + 256 * hi.val)) 0 with ht | ht | ht
  · have ht0 : toInt16 (lo.val + 256 * hi.val) ≠ 0 := by omega
    have ht1 : ¬ 0 < toInt16 (lo.val + 256 * hi.val) := by omega
    by_cases hb : b.val &&& 0xE0 = 0
    · simp [isPinOp, ht, ht0, ht1, hb]
    · simp [isPinOp, ht, ht0, ht1, hb]
  · by_cases hb : b.val &&& 0xE0 = 0
    · simp [isPinOp, ht, hb]
    · simp [isPinOp, ht, hb]
  · have ht0 : toInt16 (lo.val + 256 * hi.val) ≠ 0 := by omega
    have ht1 : ¬ toInt16 (lo.val + 256 * hi.val) < 0 := by omega
    by_cases hb : b.val &&& 0xE0 = 0
    · simp [isPinOp, ht, ht0, ht1, hb]
    · simp [isPinOp, ht, ht0, ht1, hb]

/-- C1, at the two scenario reports: `[0x75,0x05,0x00,0x20,0,0,0,0]` pulses the
Primary pair once with direction level 1, and `[0x75,0xFB,0xFF,0x00,0,0,0,0]`
pulses the Secondary pair once with direction level 0. -/
theorem getUpdate_pin_ops_witness :
    (getUpdate ⟨3⟩ ⟨0, 0, []⟩
        ⟨fun _ => 0, 8, 8, [0x75, 0x05, 0x00, 0x20, 0, 0, 0, 0]⟩).trace.filter isPinOp =
      [Event.digitalWrite 1 1, Event.digitalWrite 4 1, Event.delayMicroseconds 10,
       Event.digitalWrite 4 0, Event.delayMicroseconds 10] ∧
    (getUpdate ⟨3⟩ ⟨0, 0, []⟩
        ⟨fun _ => 0, 8, 8, [0x75, 0xFB, 0xFF, 0x00, 0, 0, 0, 0]⟩).trace.filter isPinOp =
      [Event.digitalWrite 22 0, Event.digitalWrite 23 1, Event.delayMicroseconds 10,
       Event.digitalWrite 23 0, Event.delayMicroseconds 10] :=
  ⟨(getUpdate_pin_ops ⟨3⟩ ⟨0, 0, []⟩ (fun _ => 0) 0x05 0x00 0x20 0 0 0 0 (by decide)).trans
      (by decide),
   (getUpdate_pin_ops ⟨3⟩ ⟨0, 0, []⟩ (fun _ => 0) 0xFB 0xFF 0x00 0 0 0 0 (by decide)).trans
      (by decide)⟩

/-- C5, at a blind send (null reply pointer) on descriptor 3: one write of
`u` and seven bytes, no read, return value 0 although the read would fail. -/
theorem sendCommand_one_request_one_reply_witness :
    (sendCommand ⟨3⟩ KPOD_USB_CMD_UPDATE none ⟨fun _ => 0, 8, -1, []⟩).trace.filter isTransfer =
      [Event.write 3 (cmdByte KPOD_USB_CMD_UPDATE :: List.ofFn (fun _ : Fin 7 => (0 : BYTE))) 8] ∧
    (sendCommand ⟨3⟩ KPOD_USB_CMD_UPDATE none ⟨fun _ => 0, 8, -1, []⟩).ret = 0 :=
  have h := (sendCommand_one_request_one_reply ⟨3⟩ KPOD_USB_CMD_UPDATE none
    ⟨fun _ => 0, 8, -1, []⟩).2 (by decide)
  ⟨by simpa using h.1, h.2.2.2 ⟨rfl, by simp⟩⟩

/-- A probe that is not the KPOD leaves the set of open descriptors as it was. -/
theorem openHandles_probeMiss (host : Host) (acc : List Int) (j : Nat) :
    openHandles acc (probeMiss host j) = acc := by
  unfold probeMiss openHandles
  cases host j with
  | none => simp [stepHandles]
  | some p => simp [stepHandles]

/-- Probes that are not the KPOD leave the set of open descriptors as it was. -/
theorem openHandles_flatMap_probeMiss (host : Host) (acc : List Int) (l : List Nat) :
    openHandles acc (l.flatMap (probeMiss host)) = acc := by
  induction l with
  | nil => rfl
  | cons j l ih =>
    have h := openHandles_probeMiss host acc j
    unfold openHandles at h ih ⊢
    rw [List.flatMap_cons, List.foldl_append, h, ih]

/-- An `open` event among the events of non-matching probes carries the index
of one of them. -/
theorem devOpen_mem_flatMap_probeMiss (host : Host) (l : List Nat) (j : Nat) (ret : Int)
    (h : Event.devOpen j ret ∈ l.flatMap (probeMiss host)) : j ∈ l := by
  rw [List.mem_flatMap] at h
  obtain ⟨k, hk, hmem⟩ := h
  unfold probeMiss at hmem
  cases hh : host k with
  | none =>
    rw [hh] at hmem
    simp at hmem
    rw [hmem.1]; exact hk
  | some p =>
    rw [hh] at hmem
    simp at hmem
    rw [hmem.1]; exact hk

/-- The loop of `findHidRawDevice` when none of the `n` indices from `i` on is
the KPOD: it returns 1 after probing each of them. -/
theorem findLoop_miss (host : Host) :
    ∀ (n i : Nat) (g : Globals), (∀ j, i ≤ j → j < i + n → ¬ hostMatch host j) →
      (findLoop host n i g).ret = 1 ∧
      (findLoop host n i g).trace = (List.range' i n).flatMap (probeMiss host) := by
  intro n
  induction n with
  | zero => intro i g _; simp [findLoop]
  | succ n ih =>
    intro i g hno
    have hi : ¬ hostMatch host i := hno i (le_refl i) (by omega)
    have hrest : ∀ j, i + 1 ≤ j → j < i + 1 + n → ¬ hostMatch host j :=
      fun j h1 h2 => hno j (by omega) (by omega)
    rw [List.range'_succ, List.flatMap_cons]
    cases hh : host i with
    | none =>
      obtain ⟨h1, h2⟩ := ih (i + 1) ⟨-1⟩ hrest
      have hm : probeMiss host i = [Event.devOpen i (-1)] := by simp [probeMiss, hh]
      rw [hm]
      unfold findLoop
      simp [hh, h1, h2]
    | some p =>
      have hk : isKpod p = false := by
        cases hkp : isKpod p with
        | false => rfl
        | true => exact absurd ⟨p, hh, hkp⟩ hi
      obtain ⟨h1, h2⟩ := ih (i + 1) ⟨p.fd⟩ hrest
      have hm : probeMiss host i = [Event.devOpen i p.fd, Event.ioctl p.fd,
          Event.printf "vid:%x pid:%x\n" [p.vendor % 65536, p.product % 65536],
          Event.close p.fd] := by simp [probeMiss, hh]
      rw [hm]
      unfold findLoop
      simp [hh, hk, h1, h2]

/-- The loop of `findHidRawDevice` when index `i + k` is the first KPOD from `i`
on and lies within the `n` indices left: it returns 0 with that descriptor
stored, having probed and closed the earlier ones, and opens nothing further. -/
theorem findLoop_hit (host : Host) :
    ∀ (k n i : Nat) (g : Globals) (p : Probe), k < n → host (i + k) = some p →
      isKpod p = true → (∀ j, i ≤ j → j < i + k → ¬ hostMatch host j) →
      findLoop host n i g =
        ⟨0, ⟨p.fd⟩, (List.range' i k).flatMap (probeMiss host) ++ probeHit (i + k) p⟩ := by
  intro k
  induction k with
  | zero =>
    intro n i g p hn hp hk _
    obtain ⟨n, rfl⟩ : ∃ n', n = n' + 1 := ⟨n - 1, by omega⟩
    rw [Nat.add_zero] at hp
    unfold findLoop
    simp [hp, hk, probeHit]
  | succ k ih =>
    intro n i g p hn hp hk hno
    obtain ⟨n, rfl⟩ : ∃ n', n = n' + 1 := ⟨n - 1, by omega⟩
    have hi : ¬ hostMatch host i := hno i (le_refl i) (by omega)
    have hrest : ∀ j, i + 1 ≤ j → j < i + 1 + k → ¬ hostMatch host j :=
      fun j h1 h2 => hno j (by omega) (by omega)
    have hp2 : host (i + 1 + k) = some p := by
      have : i + 1 + k = i + (k + 1) := by omega
      rw [this]; exact hp
    have hidx : i + (k + 1) = i + 1 + k := by omega
    rw [List.range'_succ, List.flatMap_cons, hidx]
    cases hh : host i with
    | none =>
      have h := ih n (i + 1) ⟨-1⟩ p (by omega) hp2 hk hrest
      have hm : probeMiss host i = [Event.devOpen i (-1)] := by simp [probeMiss, hh]
      rw [hm]
      unfold findLoop
      simp [hh, h]
    | some q =>
      have hq : isKpod q = false := by
        cases hkq : isKpod q with
        | false => rfl
        | true => exact absurd ⟨q, hh, hkq⟩ hi
      have h := ih n (i + 1) ⟨q.fd⟩ p (by omega) hp2 hk hrest
      have hm : probeMiss host i = [Event.devOpen i q.fd, Event.ioctl q.fd,
          Event.printf "vid:%x pid:%x\n" [q.vendor % 65536, q.product % 65536],
          Event.close q.fd] := by simp [probeMiss, hh]
      rw [hm]
      unfold findLoop
      simp [hh, hq, h]

/-- Discovery in terms of the test of the code: `findHidRawDevice` returns 0
exactly when some index below 255 passes the test, stops at the smallest such
index, and otherwise probes and closes all 255. -/
theorem findHidRawDevice_hostMatch (host : Host) (g : Globals) :
    ((findHidRawDevice host g).ret = 0 ↔ ∃ i, i < 255 ∧ hostMatch host i) ∧
    (∀ (m : Nat) (p : Probe), m < 255 → host m = some p → isKpod p = true →
      (∀ j, j < m → ¬ hostMatch host j) →
        (findHidRawDevice host g).ret = 0 ∧
        (findHidRawDevice host g).g.TargetDevice = p.fd ∧
        (findHidRawDevice host g).trace =
          (List.range m).flatMap (probeMiss host) ++ probeHit m p ∧
        openHandles [] (findHidRawDevice host g).trace = [(p.fd : Int)] ∧
        (∀ j ret, Event.devOpen j ret ∈ (findHidRawDevice host g).trace → j ≤ m)) ∧
    ((∀ i, i < 255 → ¬ hostMatch host i) →
        (findHidRawDevice host g).ret = 1 ∧
        (findHidRawDevice host g).trace = (List.range 255).flatMap (probeMiss host) ∧
        openHandles [] (findHidRawDevice host g).trace = []) := by
  have hit : ∀ (m : Nat) (p : Probe), m < 255 → host m = some p → isKpod p = true →
      (∀ j, j < m → ¬ hostMatch host j) →
        findHidRawDevice host g =
          ⟨0, ⟨p.fd⟩, (List.range m).flatMap (probeMiss host) ++ probeHit m p⟩ := by
    intro m p hm hp hk hno
    have h := findLoop_hit host m 255 0 g p hm (by rw [Nat.zero_add]; exact hp) hk
      (fun j _ h2 => hno j (by omega))
    rw [Nat.zero_add, ← List.range_eq_range'] at h
    exact h
  have miss : (∀ i, i < 255 → ¬ hostMatch host i) →
      (findHidRawDevice host g).ret = 1 ∧
      (findHidRawDevice host g).trace = (List.range 255).flatMap (probeMiss host) := by
    intro hno
    have h := findLoop_miss host 255 0 g (fun j _ h2 => hno j (by omega))
    rw [← List.range_eq_range'] at h
    exact h
  refine ⟨⟨fun h0 => ?_, fun hex => ?_⟩, fun m p hm hp hk hno => ?_, fun hno => ?_⟩
  · by_contra hne
    have h1 := (miss (fun i hi hmatch => hne ⟨i, hi, hmatch⟩)).1
    rw [h0] at h1
    exact absurd h1 (by decide)
  · obtain ⟨m, ⟨hm, p, hp, hk⟩, hmin⟩ :
        ∃ m, (m < 255 ∧ hostMatch host m) ∧ ∀ j, j < m → ¬ (j < 255 ∧ hostMatch host j) := by
      classical
      exact ⟨Nat.find hex, Nat.find_spec hex, fun j hj => Nat.find_min hex hj⟩
    rw [hit m p hm hp hk (fun j hj hmatch => hmin j hj ⟨by omega, hmatch⟩)]
  · rw [hit m p hm hp hk hno]
    refine ⟨rfl, rfl, rfl, ?_, ?_⟩
    · show openHandles [] ((List.range m).flatMap (probeMiss host) ++ probeHit m p) = _
      unfold openHandles
      rw [List.foldl_append]
      have h := openHandles_flatMap_probeMiss host [] (List.range m)
      unfold openHandles at h
      rw [h]
      simp [probeHit, stepHandles]
    · intro j ret hmem
      have hmem2 : Event.devOpen j ret ∈
          (List.range m).flatMap (probeMiss host) ++ probeHit m p := hmem
      rw [List.mem_append] at hmem2
      rcases hmem2 with h | h
      · have := devOpen_mem_flatMap_probeMiss host _ j ret h
        rw [List.mem_range] at this
        omega
      · simp [probeHit] at h
        omega
  · obtain ⟨h1, h2⟩ := miss hno
    refine ⟨h1, h2, ?_⟩
    rw [h2]
    exact openHandles_flatMap_probeMiss host [] _

/-- The test of the code on the identifiers of a probe holds exactly when the
low 16 bits of the vendor are `0x04d8` and those of the product are `0xF12D`. -/
theorem isKpod_iff (p : Probe) :
    isKpod p = true ↔ p.vendor % 65536 = 0x04d8 ∧ p.product % 65536 = 0xF12D := by
  simp [isKpod, VENDOR_ID, PRODUCT_ID]

/-- C4: `findHidRawDevice` returns 0 exactly when some index below 255 opens and
reports vendor `0x04d8` and product `0xF12D` in the low 16 bits of each
identifier.  When `m` is the smallest such index it returns 0 with the
descriptor of `m` stored in `TargetDevice`; its events are, for each smaller
index in order, the failed `open` or the `open`, query and `close` of that
index, followed by the `open` and query of `m`, so that exactly the descriptor
of `m` is left open and no index after `m` is opened.  When no index matches it
returns 1, having probed all 255 indices and closed every descriptor it opened,
so that none is left open. -/
theorem findHidRawDevice_first_match (host : Host) (g : Globals) :
    ((findHidRawDevice host g).ret = 0 ↔
      ∃ i, i < 255 ∧ ∃ p, host i = some p ∧
        p.vendor % 65536 = 0x04d8 ∧ p.product % 65536 = 0xF12D) ∧
    (∀ (m : Nat) (p : Probe), m < 255 → host m = some p →
      p.vendor % 65536 = 0x04d8 → p.product % 65536 = 0xF12D →
      (∀ j q, j < m → host j = some q →
        ¬ (q.vendor % 65536 = 0x04d8 ∧ q.product % 65536 = 0xF12D)) →
        (findHidRawDevice host g).ret = 0 ∧
        (findHidRawDevice host g).g.TargetDevice = p.fd ∧
        (findHidRawDevice host g).trace =
          (List.range m).flatMap (probeMiss host) ++ probeHit m p ∧
        openHandles [] (findHidRawDevice host g).trace = [(p.fd : Int)] ∧
        (∀ j ret, Event.devOpen j ret ∈ (findHidRawDevice host g).trace → j ≤ m)) ∧
    ((∀ i q, i < 255 → host i = some q →
        ¬ (q.vendor % 65536 = 0x04d8 ∧ q.product % 65536 = 0xF12D)) →
        (findHidRawDevice host g).ret = 1 ∧
        (findHidRawDevice host g).trace = (List.range 255).flatMap (probeMiss host) ∧
        openHandles [] (findHidRawDevice host g).trace = []) := by
  obtain ⟨h1, h2, h3⟩ := findHidRawDevice_hostMatch host g
  refine ⟨?_, fun m p hm hp hv hpr hno => ?_, fun hno => ?_⟩
  · rw [h1]
    constructor
    · rintro ⟨i, hi, p, hp, hk⟩
      exact ⟨i, hi, p, hp, (isKpod_iff p).mp hk⟩
    · rintro ⟨i, hi, p, hp, hk⟩
      exact ⟨i, hi, p, hp, (isKpod_iff p).mpr hk⟩
  · exact h2 m p hm hp ((isKpod_iff p).mpr ⟨hv, hpr⟩)
      (fun j hj ⟨q, hq, hk⟩ => hno j q hj hq ((isKpod_iff q).mp hk))
  · exact h3 (fun i hi ⟨q, hq, hk⟩ => hno i q hi hq ((isKpod_iff q).mp hk))

/-- C4, on a host whose index 0 is another device (descriptor 5), index 1 cannot
be opened, index 2 is the KPOD (descriptor 3) and index 3 is a second KPOD
(descriptor 4): discovery returns 0 with descriptor 3 stored, having opened and
closed descriptor 5, with descriptor 3 alone left open and index 3 never
opened. -/
theorem findHidRawDevice_first_match_witness :
    (findHidRawDevice hostKpodAt2 ⟨-1⟩).ret = 0 ∧
    (findHidRawDevice hostKpodAt2 ⟨-1⟩).g.TargetDevice = 3 ∧
    (findHidRawDevice hostKpodAt2 ⟨-1⟩).trace.filter isHandleOp =
      [Event.devOpen 0 5, Event.close 5, Event.devOpen 2 3] ∧
    openHandles [] (findHidRawDevice hostKpodAt2 ⟨-1⟩).trace = [3] ∧
    (∀ ret, Event.devOpen 3 ret ∉ (findHidRawDevice hostKpodAt2 ⟨-1⟩).trace) :=
  have hno : ∀ j q, j < 2 → hostKpodAt2 j = some q →
      ¬ (q.vendor % 65536 = 0x04d8 ∧ q.product % 65536 = 0xF12D) := by
    intro j q hj hq
    interval_cases j
    · simp [hostKpodAt2] at hq
      rw [← hq]
      decide
    · simp [hostKpodAt2] at hq
  have h := (findHidRawDevice_first_match hostKpodAt2 ⟨-1⟩).2.1 2 ⟨3, 0x04d8, -3795⟩
    (by decide) (by simp [hostKpodAt2]) (by decide) (by decide) hno
  ⟨h.1, h.2.1, by rw [h.2.2.1]; decide, h.2.2.2.1,
    fun ret hmem => absurd (h.2.2.2.2 3 ret hmem) (by decide)⟩

/-- C9, evaluated: on the host where only `/dev/hidraw254` opens (descriptor 3)
and is not the KPOD, `findHidRawDevice` closes descriptor 3 and returns 1 with
`TargetDevice` still 3, so the `closeAll` of `main` closes descriptor 3 a
second time; and two calls of `closeAll` in a row on an open descriptor close
it twice. -/
theorem closeAll_closes_stale_handle :
    (findHidRawDevice hostLastOnly ⟨-1⟩).ret = 1 ∧
    (findHidRawDevice hostLastOnly ⟨-1⟩).g.TargetDevice = 3 ∧
    (findHidRawDevice hostLastOnly ⟨-1⟩).trace.filter isHandleOp =
      [Event.devOpen 254 3, Event.close 3] ∧
    closeAll (findHidRawDevice hostLastOnly ⟨-1⟩).g = [Event.oledShutdown, Event.close 3] ∧
    (main 0 envLastOnly).exit = some 1 ∧
    (main 0 envLastOnly).trace.filter isHandleOp =
      [Event.devOpen 254 3, Event.close 3, Event.close 3] ∧
    (closeAll ⟨3⟩ ++ closeAll ⟨3⟩).filter isClose = [Event.close 3, Event.close 3] := by
  decide

/-- C8, evaluated: when `wiringPiSetup` returns -1, `main` prints its error
message and returns 0; and whatever `oledInit` returns, `main` goes on to the
Identify command and the polling loop without returning. -/
theorem main_startup_failure_exit :
    (∀ fuel, main fuel envSetupFails =
      ⟨some 0, ⟨-1⟩, [Event.wiringPiSetup,
        Event.printf "Error on wiringPiSetup.  Program quitting.\n" []]⟩) ∧
    (∀ y, (main 1 (envOledReturns y)).exit = none ∧
      (main 1 (envOledReturns y)).trace.filter isWrite =
        [Event.write 3 [0x3D, 0, 0, 0, 0, 0, 0, 0] 8,
         Event.write 3 [0x75, 0, 0, 0, 0, 0, 0, 0] 8]) := by
  refine ⟨fun _ => rfl, fun y => ?_⟩
  have h : main 1 (envOledReturns y) = main 1 (envOledReturns 0) := rfl
  rw [h]
  decide

/-- The three outcomes of `sendCommand` with a reply buffer on a valid handle. -/
theorem sendCommand_some_cases (g : Globals) (command : Int) (buf : List BYTE) (x : Xfer)
    (hg : 0 ≤ g.TargetDevice) :
    sendCommand g command (some buf) x =
        ⟨1, some buf, [Event.write g.TargetDevice (cmdByte command :: List.ofFn x.junk) 8,
          Event.printf "error writing packet\n" []]⟩ ∨
    sendCommand g command (some buf) x =
        ⟨1, some x.reply, [Event.write g.TargetDevice (cmdByte command :: List.ofFn x.junk) 8,
          Event.read g.TargetDevice 8, Event.printf "error reading packet\n" []]⟩ ∨
    sendCommand g command (some buf) x =
        ⟨0, some x.reply, [Event.write g.TargetDevice (cmdByte command :: List.ofFn x.junk) 8,
          Event.read g.TargetDevice 8]⟩ := by
  have h1 : ¬ g.TargetDevice < 0 := by omega
  by_cases hw : x.wr = 8
  · by_cases hr : x.rd = 8
    · right; right; simp [sendCommand, h1, hw, hr, REPORT_LEN]
    · right; left; simp [sendCommand, h1, hw, hr, REPORT_LEN]
  · left; simp [sendCommand, h1, hw, REPORT_LEN]

/-- One `getUpdate` on a valid handle leaves the globals as they were, issues
exactly one write, of the Update packet, and performs no `oledShutdown` and no
`close`, whatever the transport does. -/
theorem getUpdate_one_write (g : Globals) (loc : Locals) (x : Xfer) (hg : 0 ≤ g.TargetDevice) :
    (getUpdate g loc x).g = g ∧
    (getUpdate g loc x).trace.filter isWrite =
      [Event.write g.TargetDevice (cmdByte KPOD_USB_CMD_UPDATE :: List.ofFn x.junk) 8] ∧
    (getUpdate g loc x).trace.filter isShutdown = [] := by
  unfold getUpdate
  rcases sendCommand_some_cases g KPOD_USB_CMD_UPDATE loc.replypkt x hg with h | h | h
  · rw [h]
    refine ⟨rfl, rfl, rfl⟩
  · rw [h]
    refine ⟨rfl, rfl, rfl⟩
  · rw [h]
    simp only [ne_eq, not_true_eq_false, if_false]
    split_ifs <;> refine ⟨rfl, rfl, rfl⟩

/-- The polling loop on a valid handle: each of its first `n` iterations issues
exactly one write, of the Update packet, and none performs `oledShutdown` or
`close`. -/
theorem pollLoop_writes (env : Nat → Iter) :
    ∀ (n k : Nat) (g : Globals), 0 ≤ g.TargetDevice →
      (pollLoop env n k g).filter isWrite =
        (List.range' k n).map (fun i =>
          Event.write g.TargetDevice (cmdByte KPOD_USB_CMD_UPDATE :: List.ofFn (env i).x.junk) 8) ∧
      (pollLoop env n k g).filter isShutdown = [] := by
  intro n
  induction n with
  | zero => intro k g _; exact ⟨rfl, rfl⟩
  | succ n ih =>
    intro k g hg
    obtain ⟨h1, h2, h3⟩ := getUpdate_one_write g (env k).loc (env k).x hg
    unfold pollLoop
    simp only [List.filter_append, h1, h2, h3, List.range'_succ, List.map_cons]
    obtain ⟨i1, i2⟩ := ih (k + 1) g hg
    rw [i1, i2]
    exact ⟨rfl, rfl⟩

/-- When the loop of `findHidRawDevice` returns 0, the stored handle is valid. -/
theorem findLoop_ret_zero_handle (host : Host) :
    ∀ (n i : Nat) (g : Globals), (findLoop host n i g).ret = 0 →
      0 ≤ (findLoop host n i g).g.TargetDevice := by
  intro n
  induction n with
  | zero => intro i g h; simp [findLoop] at h
  | succ n ih =>
    intro i g h
    cases hh : host i with
    | none =>
      have e1 : (findLoop host (n + 1) i g).ret = (findLoop host n (i + 1) ⟨-1⟩).ret := by
        simp [findLoop, hh]
      have e2 : (findLoop host (n + 1) i g).g = (findLoop host n (i + 1) ⟨-1⟩).g := by
        simp [findLoop, hh]
      rw [e1] at h
      rw [e2]
      exact ih (i + 1) ⟨-1⟩ h
    | some p =>
      cases hk : isKpod p with
      | true =>
        have e2 : (findLoop host (n + 1) i g).g = ⟨p.fd⟩ := by
          simp [findLoop, hh, hk]
        rw [e2]
        exact Int.ofNat_nonneg p.fd
      | false =>
        have e1 : (findLoop host (n + 1) i g).ret = (findLoop host n (i + 1) ⟨p.fd⟩).ret := by
          simp [findLoop, hh, hk]
        have e2 : (findLoop host (n + 1) i g).g = (findLoop host n (i + 1) ⟨p.fd⟩).g := by
          simp [findLoop, hh, hk]
        rw [e1] at h
        rw [e2]
        exact ih (i + 1) ⟨p.fd⟩ h

/-- C7 (counterexample): in the run with the KPOD at `/dev/hidraw0` whose first
Update transaction fails (`sendCommand` returns 1), `main` has not returned
after two iterations, has issued a second Update write after the failed one,
and has performed neither `oledShutdown` nor `close`. -/
theorem main_polls_after_transport_failure :
    (sendCommand ⟨3⟩ KPOD_USB_CMD_UPDATE (some (envFailThenA.poll 0).loc.replypkt)
      (envFailThenA.poll 0).x).ret = 1 ∧
    (main 2 envFailThenA).exit = none ∧
    (main 2 envFailThenA).trace.filter isWrite =
      [Event.write 3 [0x3D, 0, 0, 0, 0, 0, 0, 0] 8,
       Event.write 3 [0x75, 0, 0, 0, 0, 0, 0, 0] 8,
       Event.write 3 [0x75, 0, 0, 0, 0, 0, 0, 0] 8] ∧
    (main 2 envFailThenA).trace.filter isShutdown = [] := by
  decide

/-- C7 (amended): once startup has succeeded, `main` does not return, whatever the
transport does: after any number `fuel` of iterations it is still polling, every
iteration has issued exactly one Update write whether or not earlier
transactions failed or were answered with a non-update report, and the loop has
performed neither `oledShutdown` nor `close`; an iteration whose transaction
fails only adds the message `usb command failure` to the events of
`sendCommand`. -/
theorem main_polling_never_stops (e : MainEnv) (fuel : Nat) (hw : e.wiringPiSetup ≠ -1)
    (hf : (findHidRawDevice e.host ⟨-1⟩).ret = 0) :
    (main fuel e).exit = none ∧
    (main fuel e).trace =
      (main 0 e).trace ++ pollLoop e.poll fuel 0 (findHidRawDevice e.host ⟨-1⟩).g ∧
    (pollLoop e.poll fuel 0 (findHidRawDevice e.host ⟨-1⟩).g).filter isWrite =
      (List.range' 0 fuel).map (fun i =>
        Event.write (findHidRawDevice e.host ⟨-1⟩).g.TargetDevice
          (cmdByte KPOD_USB_CMD_UPDATE :: List.ofFn (e.poll i).x.junk) 8) ∧
    (pollLoop e.poll fuel 0 (findHidRawDevice e.host ⟨-1⟩).g).filter isShutdown = [] ∧
    (∀ (g : Globals) (loc : Locals) (x : Xfer),
      (sendCommand g KPOD_USB_CMD_UPDATE (some loc.replypkt) x).ret ≠ 0 →
        getUpdate g loc x =
          ⟨g, loc.lctr, loc.cctr,
            (sendCommand g KPOD_USB_CMD_UPDATE (some loc.replypkt) x).trace ++
              [Event.printf "usb command failure" []]⟩) := by
  have hg : 0 ≤ (findHidRawDevice e.host ⟨-1⟩).g.TargetDevice :=
    findLoop_ret_zero_handle e.host 255 0 ⟨-1⟩ hf
  obtain ⟨p1, p2⟩ := pollLoop_writes e.poll fuel 0 _ hg
  refine ⟨?_, ?_, p1, p2, ?_⟩
  · simp [main, hw, hf]
  · simp [main, hw, hf, pollLoop]
  · intro g loc x hne
    unfold getUpdate
    simp only [hne, ne_eq, not_false_eq_true, if_true]

/-- C7 (amended), at the run with the KPOD at `/dev/hidraw0` whose first Update
transaction fails: still polling after two iterations, no shutdown event. -/
theorem main_polling_never_stops_witness :
    (main 2 envFailThenA).exit = none ∧
    (pollLoop envFailThenA.poll 2 0 (findHidRawDevice envFailThenA.host ⟨-1⟩).g).filter
      isShutdown = [] :=
  have h := main_polling_never_stops envFailThenA 2 (by decide) (by decide)
  ⟨h.1, h.2.2.2.1⟩

/-- C10 (counterexample): for the tick delta 5, the level written to the
direction pin of the Primary axis (pin 1) and the level written to the
direction pin of the Secondary axis (pin 22) are both 1, not opposite. -/
theorem direction_levels_equal_at_5 :
    dirLevel 1 (getUpdate ⟨3⟩ localsZero
      ⟨fun _ => 0, 8, 8, [0x75, 0x05, 0x00, 0x20, 0, 0, 0, 0]⟩).trace = some 1 ∧
    dirLevel 22 (getUpdate ⟨3⟩ localsZero
      ⟨fun _ => 0, 8, 8, [0x75, 0x05, 0x00, 0x00, 0, 0, 0, 0]⟩).trace = some 1 := by
  decide

/-- C10 (amended): both axes use the same direction-level convention.  For every
non-zero tick delta `t`, an update report with delta `t` routed to Primary
writes to pin 1 the same level that a report with delta `t` routed to Secondary
writes to pin 22: level 0 when `t < 0` and level 1 when `t > 0`, so that within
each axis the two signs give opposite levels. -/
theorem direction_levels_same_convention (g : Globals) (locP locS : Locals)
    (junkP junkS : Fin 7 → BYTE) (lo hi bP bS p0 p1 p2 p3 q0 q1 q2 q3 : BYTE)
    (hg : 0 ≤ g.TargetDevice) (hP : bP.val &&& 0xE0 ≠ 0) (hS : bS.val &&& 0xE0 = 0)
    (ht : toInt16 (lo.val + 256 * hi.val) ≠ 0) :
    dirLevel 1 (getUpdate g locP ⟨junkP, 8, 8, [0x75, lo, hi, bP, p0, p1, p2, p3]⟩).trace =
      some (if toInt16 (lo.val + 256 * hi.val) < 0 then 0 else 1) ∧
    dirLevel 22 (getUpdate g locS ⟨junkS, 8, 8, [0x75, lo, hi, bS, q0, q1, q2, q3]⟩).trace =
      some (if toInt16 (lo.val + 256 * hi.val) < 0 then 0 else 1) := by
  rw [getUpdate_update_eq g locP junkP lo hi bP p0 p1 p2 p3 hg,
    getUpdate_update_eq g locS junkS lo hi bS q0 q1 q2 q3 hg]
  rw [if_pos hP, if_neg (not_not.mpr hS)]
  rcases lt_or_gt_of_ne ht with h | h
  · have h2 : ¬ toInt16 (lo.val + 256 * hi.val) > 0 := by omega
    simp only [h, h2, if_true, if_false]
    exact ⟨rfl, rfl⟩
  · have h2 : ¬ toInt16 (lo.val + 256 * hi.val) < 0 := by omega
    simp only [h, h2, if_true, if_false]
    exact ⟨rfl, rfl⟩

/-- C10 (amended), at the delta -5 (bytes `0xFB, 0xFF`): level 0 on pin 1 for
Primary and level 0 on pin 22 for Secondary. -/
theorem direction_levels_same_convention_witness :
    dirLevel 1 (getUpdate ⟨3⟩ localsZero
      ⟨fun _ => 0, 8, 8, [0x75, 0xFB, 0xFF, 0x20, 0, 0, 0, 0]⟩).trace = some 0 ∧
    dirLevel 22 (getUpdate ⟨3⟩ localsZero
      ⟨fun _ => 0, 8, 8, [0x75, 0xFB, 0xFF, 0x00, 0, 0, 0, 0]⟩).trace = some 0 :=
  direction_levels_same_convention ⟨3⟩ localsZero localsZero (fun _ => 0) (fun _ => 0)
    0xFB 0xFF 0x20 0x00 0 0 0 0 0 0 0 0 (by decide) (by decide) (by decide) (by decide)

/-- C6, evaluated: the 8 bytes that `sendCommand` hands to `write` are the
command byte followed by the seven bytes that `pkt.data` happens to hold; when
that stack slot holds `0xAA` bytes the Update packet is `u` followed by seven
`0xAA` bytes, not by seven zero bytes. -/
theorem sendCommand_payload_not_zeroed :
    (∀ (command : Int) (x : Xfer),
      (sendCommand ⟨3⟩ command (some []) x).trace.filter isWrite =
        [Event.write 3 (cmdByte command :: List.ofFn x.junk) 8]) ∧
    (sendCommand ⟨3⟩ KPOD_USB_CMD_UPDATE (some []) xferStaleStack).trace.filter isWrite =
      [Event.write 3 [0x75, 0xAA, 0xAA, 0xAA, 0xAA, 0xAA, 0xAA, 0xAA] 8] ∧
    (sendCommand ⟨3⟩ KPOD_USB_CMD_UPDATE (some []) xferStaleStack).trace.filter isWrite ≠
      [Event.write 3 [0x75, 0, 0, 0, 0, 0, 0, 0] 8] := by
  refine ⟨fun command x => ?_, by decide, by decide⟩
  rcases sendCommand_some_cases ⟨3⟩ command [] x (by decide) with h | h | h <;>
    rw [h] <;> rfl

/-- C2, evaluated: on the report `[0x75,0x05,0x00,0x20,0,0,0,0]` one `getUpdate`
displays the value its own uninitialised `lctr` held on entry plus 5, wrapped to
16 bits, and nothing of an earlier call enters; so two successive iterations
that both receive this report, with `lctr` holding zero on each entry, both
display `L:5`: the second does not display a value 5 larger than the first. -/
theorem getUpdate_counter_not_carried :
    (∀ loc : Locals,
      (getUpdate ⟨3⟩ loc xferScenarioA).trace.filter isStatus =
        [Event.oledWriteString 0 0 ("L:" ++ toString (toInt16 (loc.lctr + 5))) 1]) ∧
    (pollLoop pollAlwaysA 2 0 ⟨3⟩).filter isStatus =
      [Event.oledWriteString 0 0 "L:5" 1, Event.oledWriteString 0 0 "L:5" 1] := by
  refine ⟨fun loc => ?_, by decide⟩
  unfold xferScenarioA
  rw [getUpdate_update_eq ⟨3⟩ loc (fun _ => 0) 0x05 0x00 0x20 0 0 0 0 (by decide)]
  have ht : toInt16 (((0x05 : BYTE) : Nat) + 256 * ((0x00 : BYTE) : Nat)) = 5 := by decide
  rw [if_pos (by decide), ht]
  rfl

end Urat
